import Mathlib

/-!
# MicroMedics — verification of the gameplay-loop logic

Shallow embedding of the gameplay core of `src/MicroMedicsGameProblematic.jsx`
(the two sibling variants contain byte-identical logic for every part modelled
here).  The embedding covers:

* the global session object `G` (score, health, energy, power mode/timer,
  stars, unlocked systems, learned facts) together with the persistence layer
  (`loadProgress` / `saveProgress` / `G.persist` / `G.load`);
* the per-level run state of the two platformer scenes (`CirculatoryLevel`,
  `LungsLevel`): orb pickup, power-up pickup, virus contact with the damage
  cooldown, the power-mode timer, the completion check and the death restart;
* the `BodyMapScene` heart-repair button (its enabled-gating and its click
  handler);
* the player controller (`enableCursors` / `applyMoveAndJump`) with jump
  buffering and coyote time.

Conventions.  JavaScript numbers that only ever hold integral millisecond
times, scores and counters are modelled as `Int` (or `Nat` for the energy
counter, which is only ever incremented from 0).  Truncation/NaN issues do not
arise for these quantities in the source.  Kinematic state (positions and
velocities, the chase/flee steering of enemies) is continuous rendering-engine
state and is not part of the discrete model; the source mutates none of the
modelled fields through it.
-/

namespace MicroMedics

/-! ## JSON values

A model of the JSON values that can sit in the `mm_progress` local-storage
slot.  `JSON.stringify`/`JSON.parse` round-trip such values exactly, so the
storage slot is modelled at the level of this AST. -/

inductive JVal where
  | null
  | jbool (b : Bool)
  | jnum (n : Int)
  | jstr (s : String)
  | jarr (elems : List JVal)
  | jobj (fields : List (String × JVal))
deriving Repr

/-- JavaScript property access `v[k]` on a JSON value: `none` plays the role
of `undefined` (non-objects have no own properties relevant here). -/
def jsField : JVal → String → Option JVal
  | .jobj fields, k => (fields.find? (fun f => f.1 = k)).map (fun f => f.2)
  | _, _ => none

/-- JavaScript truthiness of a JSON value (`!!v` / `if (!v)`). -/
def truthy : JVal → Bool
  | .null => false
  | .jbool b => b
  | .jnum n => decide (n ≠ 0)
  | .jstr s => decide (s ≠ "")
  | .jarr _ => true
  | .jobj _ => true

/-- The `mm_progress` local-storage slot: absent (`getItem` returns `null`),
holding a string that does not parse as JSON (`JSON.parse` throws, caught to
`null` in `loadProgress`), or holding a parsed JSON value. -/
inductive Storage where
  | absent
  | malformed
  | stored (p : JVal)
deriving Repr

/-! ## The global session object `G` -/

/-- The `G.systems` record. -/
structure Sys where
  heart : Bool
  lungs : Bool
deriving Repr, DecidableEq

inductive SysId where
  | heart
  | lungs
deriving Repr, DecidableEq

def Sys.set (s : Sys) : SysId → Bool → Sys
  | .heart, v => { s with heart := v }
  | .lungs, v => { s with lungs := v }

def Sys.get (s : Sys) : SysId → Bool
  | .heart => s.heart
  | .lungs => s.lungs

/-- The global mutable session object `G`, together with the local-storage
slot it persists into (`stored`).  `startTimestamp`/`patient` are
presentation-only and omitted. -/
structure GState where
  score : Int
  health : Int
  energy : Nat
  level : Nat
  powerMode : Bool
  powerTimer : Int
  stars : Int
  systems : Sys
  facts : List String
  stored : Storage
deriving Repr

/-- The initial `G` (fields as initialised in the object literal), over an
absent storage slot. -/
def initG : GState :=
  { score := 0, health := 100, energy := 0, level := 1
    powerMode := false, powerTimer := 0
    stars := 0, systems := { heart := false, lungs := false }, facts := []
    stored := .absent }

/-- `G.resetStatsForLevel()`. -/
def resetStatsForLevel (g : GState) : GState :=
  { g with health := 100, energy := 0, powerMode := false, powerTimer := 0 }

/-- The object `saveProgress` serialises: `{ stars, systems, facts }`.
Score, health, energy, level and the power-mode fields are not part of it. -/
def progressJson (g : GState) : JVal :=
  .jobj [("stars", .jnum g.stars),
         ("systems", .jobj [("heart", .jbool g.systems.heart),
                            ("lungs", .jbool g.systems.lungs)]),
         ("facts", .jarr (g.facts.map .jstr))]

/-- `G.persist()`: overwrite the storage slot with the serialised snapshot. -/
def persistG (g : GState) : GState :=
  { g with stored := .stored (progressJson g) }

/-- `addStars(n)` (the React mirror `setStars` is presentation-only). -/
def addStars (n : Int) (g : GState) : GState :=
  persistG { g with stars := max 0 (g.stars + n) }

/-- `addFact(t)`: append if not already learned, then persist. -/
def addFact (t : String) (g : GState) : GState :=
  if t ∈ g.facts then g else persistG { g with facts := g.facts ++ [t] }

/-- `setSystem(k, v)`. -/
def setSystemG (k : SysId) (v : Bool) (g : GState) : GState :=
  persistG { g with systems := g.systems.set k v }

/-! ## `G.load()`

`load` reads the slot (`loadProgress`), bails out on a falsy parse result and
otherwise adopts `p.stars ?? 0`, `!!p.systems?.heart`, `!!p.systems?.lungs`
and `Array.isArray(p.facts) ? p.facts : []`.  None of these accesses can
throw, so the function is total over arbitrary storage contents; the stored
values are adopted *verbatim*, so after a load `G.stars` can hold any JSON
value and `G.facts` any JSON array.  `loadRaw` below models `load()` at that
dynamically-typed level and is total on every storage content, like the
source.  `loadG` is its restriction to the integer-stars/string-facts state
space `GState` (the only states the game itself ever produces and the only
ones the round-trip claim quantifies over): it returns `none` exactly on
stored records whose adopted fields fall outside that space. -/

/-- `p.stars ?? 0`, on the representable (integer-or-nullish) inputs. -/
def starsOf (p : JVal) : Option Int :=
  match jsField p "stars" with
  | none => some 0
  | some .null => some 0
  | some (.jnum n) => some n
  | some _ => none

/-- `!!p.systems?.k`: optional chaining yields `undefined` on a nullish or
property-less `systems`, and `!!undefined = false`. -/
def sysFlag (p : JVal) (k : String) : Bool :=
  match jsField p "systems" with
  | some sv =>
    match jsField sv k with
    | some v => truthy v
    | none => false
  | none => false

/-- Extract a list of strings from a JSON array, on representable inputs. -/
def strListOf : List JVal → Option (List String)
  | [] => some []
  | .jstr s :: rest => (strListOf rest).map (fun l => s :: l)
  | _ => none

/-- `Array.isArray(p.facts) ? p.facts : []`, on representable inputs. -/
def factsOf (p : JVal) : Option (List String) :=
  match jsField p "facts" with
  | some (.jarr xs) => strListOf xs
  | _ => some []

/-- `G.load()`: read the slot; on `null` (absent slot or parse failure) or any
other falsy parse result, return leaving `G` untouched; otherwise adopt the
three persisted fields. -/
def loadG (g : GState) : Option GState :=
  match g.stored with
  | .absent => some g
  | .malformed => some g
  | .stored p =>
    if truthy p then
      match starsOf p, factsOf p with
      | some st, some fs =>
        some { g with stars := st
                      systems := { heart := sysFlag p "heart", lungs := sysFlag p "lungs" }
                      facts := fs }
      | _, _ => none
    else some g

/-- The progress triple `{stars, systems, facts}` in the dynamically-typed
form the JS `G` object holds: `stars` is an arbitrary JSON value and `facts`
an arbitrary list of JSON values once a `load()` has adopted them. -/
structure LoadedProgress where
  stars : JVal
  systems : Sys
  facts : List JVal
deriving Repr

/-- The in-memory progress of a typed state, viewed dynamically (`G.stars`
is a number, `G.facts` an array of strings). -/
def dynProgress (g : GState) : LoadedProgress :=
  { stars := .jnum g.stars, systems := g.systems, facts := g.facts.map .jstr }

/-- The three assignments of `G.load()` on a truthy parse result, adopting
the stored fields verbatim: `p.stars ?? 0` (nullish coalescing only — any
other value is kept as is), `!!p.systems?.heart`, `!!p.systems?.lungs`, and
`Array.isArray(p.facts) ? p.facts : []`.  Total on every JSON value. -/
def adoptRecord (p : JVal) : LoadedProgress :=
  { stars :=
      match jsField p "stars" with
      | none => .jnum 0
      | some .null => .jnum 0
      | some v => v
    systems := { heart := sysFlag p "heart", lungs := sysFlag p "lungs" }
    facts :=
      match jsField p "facts" with
      | some (.jarr xs) => xs
      | _ => [] }

/-- `G.load()` over the dynamically-typed progress: read the slot; on `null`
(absent slot or parse failure) or any other falsy parse result, return
leaving the in-memory progress untouched; otherwise adopt the three stored
fields.  Total on every storage content, exactly like the JS function. -/
def loadRaw (g : GState) : LoadedProgress :=
  match g.stored with
  | .absent => dynProgress g
  | .malformed => dynProgress g
  | .stored p => if truthy p then adoptRecord p else dynProgress g

/-! ## Per-level run state

The two platformer scenes share their logic; they differ only in the energy
threshold (`maxE`), score bonuses, the power-mode tint colour, the number of
spawned viruses and the reward (which body system is flagged and which two
facts are taught).  The shared logic is parameterised by a `LevelCfg` and the
two concrete configurations are `circCfg` and `lungsCfg`. -/

/-- One virus sprite, as far as the discrete state goes: its `vulnerable`
flag and its current tint (`none` = `clearTint()`).  Destroyed sprites are
removed from the group, so the enemy list only holds live enemies. -/
structure Enemy where
  vulnerable : Bool
  tint : Option Nat
deriving Repr, DecidableEq

/-- Level-specific constants of the two scenes. -/
structure LevelCfg where
  /-- `maxE`: 10 for Circulatory, 12 for Lungs. -/
  maxE : Nat
  brainScore : Int
  virusScore : Int
  /-- tint applied to vulnerable viruses by `activatePower`. -/
  powerTint : Nat
  /-- how many viruses `create` spawns. -/
  enemyCount : Nat
  /-- which body system `complete()` flags unlocked. -/
  sysId : SysId
  fact1 : String
  fact2 : String

def circCfg : LevelCfg :=
  { maxE := 10, brainScore := 100, virusScore := 200, powerTint := 0x5dade2
    enemyCount := 2, sysId := .heart
    fact1 := "The heart pumps ~100,000 times per day."
    fact2 := "Valves prevent backflow, keeping blood moving the right way." }

def lungsCfg : LevelCfg :=
  { maxE := 12, brainScore := 120, virusScore := 220, powerTint := 0x2ecc71
    enemyCount := 3, sysId := .lungs
    fact1 := "Alveoli are tiny sacs where oxygen enters the blood."
    fact2 := "The diaphragm helps pull air into the lungs by creating negative pressure." }

/-- The scene-owned run state of one level attempt, over the global `G`. -/
structure RunState where
  g : GState
  /-- `this._completed` (set by `complete()`, which also pauses physics). -/
  completed : Bool
  /-- `this.lastHitAt`. -/
  lastHitAt : Int
  /-- `this._brain`. -/
  brain : Bool
  /-- `this._virus`. -/
  virus : Bool
  /-- live members of `this.viruses`. -/
  enemies : List Enemy
deriving Repr

/-- `create()`, restricted to the modelled state: `G.resetStatsForLevel()`,
`this._completed=false; this.lastHitAt=0`, objective flags down, and
`enemyCount` fresh viruses with `vulnerable=false` and no tint. -/
def createLevel (cfg : LevelCfg) (g : GState) : RunState :=
  { g := resetStatsForLevel g
    completed := false, lastHitAt := 0, brain := false, virus := false
    enemies := List.replicate cfg.enemyCount { vulnerable := false, tint := none } }

/-- `activatePower(ms)`: switch power mode on with the given timer and flag
every live virus vulnerable with the level's power tint.  (The player's own
tint is presentation-only.) -/
def activatePower (cfg : LevelCfg) (ms : Int) (s : RunState) : RunState :=
  { s with g := { s.g with powerMode := true, powerTimer := ms }
           enemies := s.enemies.map (fun _ => { vulnerable := true, tint := some cfg.powerTint }) }

/-- `endPower()`: power mode off, timer zeroed, every virus invulnerable and
untinted. -/
def endPower (s : RunState) : RunState :=
  { s with g := { s.g with powerMode := false, powerTimer := 0 }
           enemies := s.enemies.map (fun _ => { vulnerable := false, tint := none }) }

/-- The orb overlap handler: `orb.destroy(); if (G.energy<maxE) G.energy+=1;
G.score+=10;`. -/
def orbPickup (cfg : LevelCfg) (s : RunState) : RunState :=
  { s with g := { s.g with
                  energy := if s.g.energy < cfg.maxE then s.g.energy + 1 else s.g.energy
                  score := s.g.score + 10 } }

/-- The power-up overlap handler: `p.destroy(); this.activatePower(6000);
this._brain=true; G.score+=brainScore;`. -/
def powerupPickup (cfg : LevelCfg) (s : RunState) : RunState :=
  let s1 := activatePower cfg 6000 s
  { s1 with brain := true, g := { s1.g with score := s1.g.score + cfg.brainScore } }

/-- The virus overlap handler, for a contact with the enemy at index `i` at
scene time `now`.  Vulnerable-while-empowered contact destroys the virus and
sets the sub-goal; otherwise damage is applied unless the 650 ms cooldown
since `lastHitAt` is still running. -/
def virusContact (cfg : LevelCfg) (i : Nat) (now : Int) (s : RunState) : RunState :=
  if h : i < s.enemies.length then
    let v := s.enemies.get ⟨i, h⟩
    if s.g.powerMode && v.vulnerable then
      { s with enemies := s.enemies.eraseIdx i, virus := true
               g := { s.g with score := s.g.score + cfg.virusScore } }
    else if now - s.lastHitAt < 650 then s
    else
      { s with lastHitAt := now
               g := { s.g with health :=
                        if s.g.health - 10 < 0 then 0 else s.g.health - 10 } }
  else s

/-- `complete()`: freeze gameplay (`this._completed=true`, `physics.pause()`),
then `addStars(1); addFact(fact1); addFact(fact2); setSystem(sysId, true)`. -/
def completeLevel (cfg : LevelCfg) (s : RunState) : RunState :=
  if s.completed then s
  else
    { s with completed := true
             g := setSystemG cfg.sysId true (addFact cfg.fact2 (addFact cfg.fact1 (addStars 1 s.g))) }

/-- The power-timer line of `update`: `if (G.powerMode) { G.powerTimer -= dt;
if (G.powerTimer<=0) this.endPower(); }`. -/
def tickPower (dt : Int) (s : RunState) : RunState :=
  if s.g.powerMode then
    if s.g.powerTimer - dt ≤ 0 then endPower s
    else { s with g := { s.g with powerTimer := s.g.powerTimer - dt } }
  else s

/-- The completion line of `update`: `if (G.energy>=maxE && (this._brain ||
this._virus)) this.complete();`. -/
def tickComplete (cfg : LevelCfg) (s : RunState) : RunState :=
  if cfg.maxE ≤ s.g.energy && (s.brain || s.virus) then completeLevel cfg s else s

/-- The death line of `update`: `if (G.health<=0) this.scene.restart();` —
the restart re-runs `create` at end of frame. -/
def tickDeath (cfg : LevelCfg) (s : RunState) : RunState :=
  if s.g.health ≤ 0 then createLevel cfg s.g else s

/-- `update(_, dt)`, restricted to the modelled state.  After the completed
guard: the power-timer countdown (with `endPower` on reaching `<= 0`), then —
skipping `applyMoveAndJump` and the virus steering, which touch only
kinematic state — the completion check and the death check.  `scene.restart()`
is processed by the engine at the end of the frame (it re-runs `create`), so
the Circulatory order (complete-check before death-check) and the Lungs order
(death-check before complete-check) yield the same end-of-frame state; both
are modelled by applying `complete()` first and the restart last. -/
def levelTick (cfg : LevelCfg) (dt : Int) (s : RunState) : RunState :=
  if s.completed then s
  else tickDeath cfg (tickComplete cfg (tickPower dt s))

/-! ## Reachability

Events a live level processes: the three overlap handlers and the per-frame
`update`.  Overlap callbacks are produced by the physics step, which
`complete()` pauses, so no event other than a (no-op) tick reaches a completed
scene.  Contact times are non-negative and frame deltas are positive. -/

inductive Ev where
  | orb
  | powerup
  | virusHit (i : Nat) (now : Int)
  | tick (dt : Int)

/-- Which events the engine can deliver: positive frame deltas, non-negative
contact timestamps. -/
def EvOk : Ev → Prop
  | .orb => True
  | .powerup => True
  | .virusHit _ now => 0 ≤ now
  | .tick dt => 0 < dt

def step (cfg : LevelCfg) (s : RunState) : Ev → RunState
  | .orb => if s.completed then s else orbPickup cfg s
  | .powerup => if s.completed then s else powerupPickup cfg s
  | .virusHit i now => if s.completed then s else virusContact cfg i now s
  | .tick dt => levelTick cfg dt s

/-- Run states reachable in a level attempt entered with global state `g0`. -/
inductive Reach (cfg : LevelCfg) (g0 : GState) : RunState → Prop
  | init : Reach cfg g0 (createLevel cfg g0)
  | next {s : RunState} (e : Ev) : Reach cfg g0 s → EvOk e → Reach cfg g0 (step cfg s e)

/-! ## Player controller

`enableCursors` initialises `jumpBufferTime = coyoteTime = 0` and registers a
`keydown-UP` listener that stamps `jumpBufferTime` with the current time;
`applyMoveAndJump` runs every frame.  Ground contact and the held direction
keys are physics/input facts read by the function, passed here as booleans. -/

structure PCState where
  jumpBufferTime : Int
  coyoteTime : Int
  vx : Int
  vy : Int
deriving Repr, DecidableEq

/-- State after `enableCursors(scene)` (velocities start at rest). -/
def pcInit : PCState := { jumpBufferTime := 0, coyoteTime := 0, vx := 0, vy := 0 }

/-- The `keydown-UP` listener: `scene.jumpBufferTime = scene.time.now`. -/
def keydownUp (now : Int) (s : PCState) : PCState :=
  { s with jumpBufferTime := now }

/-- The jump condition of `applyMoveAndJump`: `canUseBuffer && hasCoyote`,
where `coyoteTime` has already been refreshed to `now` if the player is on
the ground (`now - now <= 140` is then trivially true). -/
def jumpFires (now : Int) (onGround : Bool) (s : PCState) : Bool :=
  decide (now - s.jumpBufferTime ≤ 140) &&
    (onGround || decide (now - s.coyoteTime ≤ 140))

/-- `applyMoveAndJump(scene)`: refresh coyote time on ground contact, set the
horizontal velocity from the held keys (`JUMP_BUFFER_MS = COYOTE_TIME_MS =
140`, speed 200, `JUMP_VELOCITY = -460`), and jump — clearing both recorded
times — when both windows are open. -/
def applyMoveAndJump (now : Int) (onGround leftDown rightDown : Bool)
    (s : PCState) : PCState :=
  let coyote := if onGround then now else s.coyoteTime
  let vx : Int := if leftDown then -200 else if rightDown then 200 else 0
  if jumpFires now onGround s then
    { jumpBufferTime := 0, coyoteTime := 0, vx := vx, vy := -460 }
  else
    { s with coyoteTime := coyote, vx := vx }

/-- Input stream of the controller: key presses and frames. -/
inductive PInput where
  | keyUp (t : Int)
  | frame (t : Int) (onGround leftDown rightDown : Bool)
deriving Repr, DecidableEq

def pcRun (s : PCState) : List PInput → PCState
  | [] => s
  | .keyUp t :: rest => pcRun (keydownUp t s) rest
  | .frame t g l r :: rest => pcRun (applyMoveAndJump t g l r s) rest

/-! ## Body-map hub: the heart repair button

`BodyMapScene.create` builds the heart button with enabled flag
`!G.systems.heart && G.stars >= 1`; `button(...)` attaches the `pointerdown`
handler only when that flag is true, so a press on a disabled button invokes
nothing.  The handler itself early-returns when the heart is already repaired,
shows a toast (and changes nothing) when `G.stars < 1`, and otherwise runs
`addStars(-1); setSystem("heart", true)` and shows the success toast. -/

def heartBtnEnabled (g : GState) : Bool :=
  !g.systems.heart && decide (g.stars ≥ 1)

/-- The `onClick` closure of the heart button: resulting global state plus the
toast text it displays, if any. -/
def heartBtnHandler (g : GState) : GState × Option String :=
  if g.systems.heart then (g, none)
  else if g.stars < 1 then (g, some "Earn a ⭐ by completing a level first.")
  else (setSystemG .heart true (addStars (-1) g),
        some "Heart valve repaired! Lungs unlocked.")

/-- A pointer press on the heart button as wired by `button(...)`: the
handler runs only while the button is enabled. -/
def pressHeartBtn (g : GState) : GState × Option String :=
  if heartBtnEnabled g then heartBtnHandler g else (g, none)

/-! ## Projection lemmas for the progress helpers

`persistG`, `addStars`, `addFact` and `setSystemG` touch only the progress
fields (`stars`, `facts`, `systems`) and the storage slot; every other field
of `G` passes through unchanged. -/

@[simp] lemma persistG_score (g : GState) : (persistG g).score = g.score := rfl

@[simp] lemma persistG_health (g : GState) : (persistG g).health = g.health := rfl

@[simp] lemma persistG_energy (g : GState) : (persistG g).energy = g.energy := rfl

@[simp] lemma persistG_powerMode (g : GState) : (persistG g).powerMode = g.powerMode := rfl

@[simp] lemma persistG_powerTimer (g : GState) : (persistG g).powerTimer = g.powerTimer := rfl

@[simp] lemma persistG_stars (g : GState) : (persistG g).stars = g.stars := rfl

@[simp] lemma persistG_systems (g : GState) : (persistG g).systems = g.systems := rfl

@[simp] lemma persistG_facts (g : GState) : (persistG g).facts = g.facts := rfl

@[simp] lemma addStars_score (n : Int) (g : GState) : (addStars n g).score = g.score := rfl

@[simp] lemma addStars_health (n : Int) (g : GState) : (addStars n g).health = g.health := rfl

@[simp] lemma addStars_energy (n : Int) (g : GState) : (addStars n g).energy = g.energy := rfl

@[simp] lemma addStars_powerMode (n : Int) (g : GState) :
    (addStars n g).powerMode = g.powerMode := rfl

@[simp] lemma addStars_powerTimer (n : Int) (g : GState) :
    (addStars n g).powerTimer = g.powerTimer := rfl

@[simp] lemma addStars_systems (n : Int) (g : GState) : (addStars n g).systems = g.systems := rfl

@[simp] lemma addStars_facts (n : Int) (g : GState) : (addStars n g).facts = g.facts := rfl

@[simp] lemma addStars_stars (n : Int) (g : GState) :
    (addStars n g).stars = max 0 (g.stars + n) := rfl

@[simp] lemma addFact_score (t : String) (g : GState) : (addFact t g).score = g.score := by
  unfold addFact; split <;> rfl

@[simp] lemma addFact_health (t : String) (g : GState) : (addFact t g).health = g.health := by
  unfold addFact; split <;> rfl

@[simp] lemma addFact_energy (t : String) (g : GState) : (addFact t g).energy = g.energy := by
  unfold addFact; split <;> rfl

@[simp] lemma addFact_powerMode (t : String) (g : GState) :
    (addFact t g).powerMode = g.powerMode := by
  unfold addFact; split <;> rfl

@[simp] lemma addFact_powerTimer (t : String) (g : GState) :
    (addFact t g).powerTimer = g.powerTimer := by
  unfold addFact; split <;> rfl

@[simp] lemma addFact_stars (t : String) (g : GState) : (addFact t g).stars = g.stars := by
  unfold addFact; split <;> rfl

@[simp] lemma addFact_systems (t : String) (g : GState) : (addFact t g).systems = g.systems := by
  unfold addFact; split <;> rfl

lemma addFact_mem (t : String) (g : GState) : t ∈ (addFact t g).facts := by
  unfold addFact; split
  · assumption
  · simp [persistG]

lemma addFact_mem_mono {u : String} (t : String) (g : GState) (h : u ∈ g.facts) :
    u ∈ (addFact t g).facts := by
  unfold addFact; split
  · exact h
  · simp [persistG]; exact Or.inl h

@[simp] lemma setSystemG_score (k : SysId) (v : Bool) (g : GState) :
    (setSystemG k v g).score = g.score := rfl

@[simp] lemma setSystemG_health (k : SysId) (v : Bool) (g : GState) :
    (setSystemG k v g).health = g.health := rfl

@[simp] lemma setSystemG_energy (k : SysId) (v : Bool) (g : GState) :
    (setSystemG k v g).energy = g.energy := rfl

@[simp] lemma setSystemG_powerMode (k : SysId) (v : Bool) (g : GState) :
    (setSystemG k v g).powerMode = g.powerMode := rfl

@[simp] lemma setSystemG_powerTimer (k : SysId) (v : Bool) (g : GState) :
    (setSystemG k v g).powerTimer = g.powerTimer := rfl

@[simp] lemma setSystemG_stars (k : SysId) (v : Bool) (g : GState) :
    (setSystemG k v g).stars = g.stars := rfl

@[simp] lemma setSystemG_facts (k : SysId) (v : Bool) (g : GState) :
    (setSystemG k v g).facts = g.facts := rfl

@[simp] lemma setSystemG_systems (k : SysId) (v : Bool) (g : GState) :
    (setSystemG k v g).systems = g.systems.set k v := rfl

/-- The reward block of `complete()` as one function of `G`, to factor the
lemmas below. -/
def grantReward (cfg : LevelCfg) (g : GState) : GState :=
  setSystemG cfg.sysId true (addFact cfg.fact2 (addFact cfg.fact1 (addStars 1 g)))

lemma completeLevel_g (cfg : LevelCfg) {s : RunState} (h : s.completed = false) :
    (completeLevel cfg s).g = grantReward cfg s.g ∧ (completeLevel cfg s).completed = true := by
  unfold completeLevel grantReward
  rw [h]
  exact ⟨rfl, rfl⟩

@[simp] lemma grantReward_score (cfg : LevelCfg) (g : GState) :
    (grantReward cfg g).score = g.score := by simp [grantReward]

@[simp] lemma grantReward_health (cfg : LevelCfg) (g : GState) :
    (grantReward cfg g).health = g.health := by simp [grantReward]

@[simp] lemma grantReward_energy (cfg : LevelCfg) (g : GState) :
    (grantReward cfg g).energy = g.energy := by simp [grantReward]

@[simp] lemma grantReward_powerMode (cfg : LevelCfg) (g : GState) :
    (grantReward cfg g).powerMode = g.powerMode := by simp [grantReward]

@[simp] lemma grantReward_powerTimer (cfg : LevelCfg) (g : GState) :
    (grantReward cfg g).powerTimer = g.powerTimer := by simp [grantReward]

@[simp] lemma grantReward_stars (cfg : LevelCfg) (g : GState) :
    (grantReward cfg g).stars = max 0 (g.stars + 1) := by simp [grantReward]

@[simp] lemma grantReward_systems (cfg : LevelCfg) (g : GState) :
    (grantReward cfg g).systems = g.systems.set cfg.sysId true := by simp [grantReward]

lemma grantReward_fact1 (cfg : LevelCfg) (g : GState) :
    cfg.fact1 ∈ (grantReward cfg g).facts := by
  unfold grantReward
  rw [setSystemG_facts]
  exact addFact_mem_mono _ _ (addFact_mem _ _)

lemma grantReward_fact2 (cfg : LevelCfg) (g : GState) :
    cfg.fact2 ∈ (grantReward cfg g).facts := by
  unfold grantReward
  rw [setSystemG_facts]
  exact addFact_mem _ _

/-! ## The run-state invariant -/

/-- Invariant of every reachable run state: the energy cap, the health range,
and the power-timer range with its coupling to the mode flag. -/
def Inv (cfg : LevelCfg) (s : RunState) : Prop :=
  s.g.energy ≤ cfg.maxE ∧ 0 ≤ s.g.health ∧ s.g.health ≤ 100 ∧
  0 ≤ s.g.powerTimer ∧ s.g.powerTimer ≤ 6000 ∧
  (s.g.powerMode = true → 0 < s.g.powerTimer) ∧
  (s.g.powerMode = false → s.g.powerTimer = 0)

lemma inv_createLevel (cfg : LevelCfg) (g : GState) : Inv cfg (createLevel cfg g) := by
  simp [Inv, createLevel, resetStatsForLevel]

lemma inv_orbPickup (cfg : LevelCfg) {s : RunState} (h : Inv cfg s) :
    Inv cfg (orbPickup cfg s) := by
  obtain ⟨hE, h2, h3, h4, h5, h6, h7⟩ := h
  refine ⟨?_, ?_, ?_, ?_, ?_, ?_, ?_⟩ <;> simp [orbPickup] <;> first
    | (split <;> omega)
    | omega
    | assumption

lemma inv_powerupPickup (cfg : LevelCfg) {s : RunState} (h : Inv cfg s) :
    Inv cfg (powerupPickup cfg s) := by
  obtain ⟨hE, h2, h3, h4, h5, h6, h7⟩ := h
  refine ⟨?_, ?_, ?_, ?_, ?_, ?_, ?_⟩ <;> simp [powerupPickup, activatePower] <;> omega

lemma inv_virusContact (cfg : LevelCfg) {s : RunState} (i : Nat) (now : Int)
    (h : Inv cfg s) : Inv cfg (virusContact cfg i now s) := by
  obtain ⟨hE, h2, h3, h4, h5, h6, h7⟩ := h
  unfold virusContact
  split
  · dsimp only
    split
    · exact ⟨hE, h2, h3, h4, h5, h6, h7⟩
    · split
      · exact ⟨hE, h2, h3, h4, h5, h6, h7⟩
      · refine ⟨hE, ?_, ?_, h4, h5, h6, h7⟩ <;> simp only [] <;> split <;> omega
  · exact ⟨hE, h2, h3, h4, h5, h6, h7⟩

lemma inv_endPower (cfg : LevelCfg) {s : RunState} (h : Inv cfg s) : Inv cfg (endPower s) := by
  obtain ⟨hE, h2, h3, _, _, _, _⟩ := h
  refine ⟨?_, ?_, ?_, ?_, ?_, ?_, ?_⟩ <;> simp [endPower] <;> assumption

lemma inv_completeLevel (cfg : LevelCfg) {s : RunState} (h : Inv cfg s) :
    Inv cfg (completeLevel cfg s) := by
  obtain ⟨hE, h2, h3, h4, h5, h6, h7⟩ := h
  unfold completeLevel
  split
  · exact ⟨hE, h2, h3, h4, h5, h6, h7⟩
  · exact ⟨by simpa [grantReward] using hE, by simpa [grantReward] using h2,
      by simpa [grantReward] using h3, by simpa [grantReward] using h4,
      by simpa [grantReward] using h5, by simpa [grantReward] using h6,
      by simpa [grantReward] using h7⟩

lemma inv_tickPower (cfg : LevelCfg) {s : RunState} {dt : Int} (h : Inv cfg s)
    (hdt : 0 < dt) : Inv cfg (tickPower dt s) := by
  obtain ⟨hE, h2, h3, h4, h5, h6, h7⟩ := h
  unfold tickPower
  split
  · split
    · exact inv_endPower cfg ⟨hE, h2, h3, h4, h5, h6, h7⟩
    · refine ⟨?_, ?_, ?_, ?_, ?_, ?_, ?_⟩ <;> simp_all <;> omega
  · exact ⟨hE, h2, h3, h4, h5, h6, h7⟩

lemma inv_tickComplete (cfg : LevelCfg) {s : RunState} (h : Inv cfg s) :
    Inv cfg (tickComplete cfg s) := by
  unfold tickComplete
  split
  · exact inv_completeLevel cfg h
  · exact h

lemma inv_tickDeath (cfg : LevelCfg) {s : RunState} (h : Inv cfg s) :
    Inv cfg (tickDeath cfg s) := by
  unfold tickDeath
  split
  · exact inv_createLevel cfg _
  · exact h

lemma inv_levelTick (cfg : LevelCfg) {s : RunState} {dt : Int} (h : Inv cfg s)
    (hdt : 0 < dt) : Inv cfg (levelTick cfg dt s) := by
  unfold levelTick
  split
  · exact h
  · exact inv_tickDeath cfg (inv_tickComplete cfg (inv_tickPower cfg h hdt))

lemma inv_step (cfg : LevelCfg) {s : RunState} {e : Ev} (h : Inv cfg s) (hok : EvOk e) :
    Inv cfg (step cfg s e) := by
  cases e with
  | orb =>
    simp only [step]
    split
    · exact h
    · exact inv_orbPickup cfg h
  | powerup =>
    simp only [step]
    split
    · exact h
    · exact inv_powerupPickup cfg h
  | virusHit i now =>
    simp only [step]
    split
    · exact h
    · exact inv_virusContact cfg i now h
  | tick dt =>
    exact inv_levelTick cfg h hok

/-- Every reachable run state satisfies the invariant. -/
lemma reach_inv {cfg : LevelCfg} {g0 : GState} {s : RunState} (h : Reach cfg g0 s) :
    Inv cfg s := by
  induction h with
  | init => exact inv_createLevel cfg g0
  | next e _ hok ih => exact inv_step cfg ih hok

/-- Stars stay non-negative along a run entered with a non-negative balance
(every write to `G.stars` inside a level goes through `addStars`). -/
lemma reach_stars {cfg : LevelCfg} {g0 : GState} {s : RunState} (h : Reach cfg g0 s)
    (h0 : 0 ≤ g0.stars) : 0 ≤ s.g.stars := by
  induction h with
  | init => exact h0
  | @next s' e hr hok ih =>
    have hp : ∀ {dtv : Int}, 0 ≤ (tickPower dtv s').g.stars := by
      intro dtv
      unfold tickPower
      split
      · split
        · simpa [endPower] using ih
        · simpa using ih
      · exact ih
    cases e with
    | orb =>
      simp only [step]
      split
      · exact ih
      · simpa [orbPickup] using ih
    | powerup =>
      simp only [step]
      split
      · exact ih
      · simpa [powerupPickup, activatePower] using ih
    | virusHit i now =>
      simp only [step]
      split
      · exact ih
      · unfold virusContact
        split
        · dsimp only
          split
          · simpa using ih
          · split
            · exact ih
            · simpa using ih
        · exact ih
    | tick dt =>
      simp only [step]
      unfold levelTick
      split
      · exact ih
      · unfold tickDeath
        have hc : 0 ≤ (tickComplete cfg (tickPower dt s')).g.stars := by
          unfold tickComplete
          split
          · unfold completeLevel
            split
            · exact hp
            · simp
          · exact hp
        split
        · simpa [createLevel, resetStatsForLevel] using hc
        · exact hc

/-! ## Frame lemmas for the tick phases -/

@[simp] lemma Sys.get_set (s : Sys) (k : SysId) (v : Bool) : (s.set k v).get k = v := by
  cases k <;> rfl

@[simp] lemma endPower_score (s : RunState) : (endPower s).g.score = s.g.score := rfl

@[simp] lemma endPower_health (s : RunState) : (endPower s).g.health = s.g.health := rfl

@[simp] lemma endPower_energy (s : RunState) : (endPower s).g.energy = s.g.energy := rfl

@[simp] lemma endPower_stars (s : RunState) : (endPower s).g.stars = s.g.stars := rfl

@[simp] lemma endPower_systems (s : RunState) : (endPower s).g.systems = s.g.systems := rfl

@[simp] lemma endPower_facts (s : RunState) : (endPower s).g.facts = s.g.facts := rfl

@[simp] lemma endPower_brain (s : RunState) : (endPower s).brain = s.brain := rfl

@[simp] lemma endPower_virus (s : RunState) : (endPower s).virus = s.virus := rfl

@[simp] lemma endPower_completed (s : RunState) : (endPower s).completed = s.completed := rfl

@[simp] lemma endPower_lastHitAt (s : RunState) : (endPower s).lastHitAt = s.lastHitAt := rfl

@[simp] lemma tickPower_score (dt : Int) (s : RunState) :
    (tickPower dt s).g.score = s.g.score := by
  unfold tickPower; split
  · split <;> rfl
  · rfl

@[simp] lemma tickPower_health (dt : Int) (s : RunState) :
    (tickPower dt s).g.health = s.g.health := by
  unfold tickPower; split
  · split <;> rfl
  · rfl

@[simp] lemma tickPower_energy (dt : Int) (s : RunState) :
    (tickPower dt s).g.energy = s.g.energy := by
  unfold tickPower; split
  · split <;> rfl
  · rfl

@[simp] lemma tickPower_stars (dt : Int) (s : RunState) :
    (tickPower dt s).g.stars = s.g.stars := by
  unfold tickPower; split
  · split <;> rfl
  · rfl

@[simp] lemma tickPower_systems (dt : Int) (s : RunState) :
    (tickPower dt s).g.systems = s.g.systems := by
  unfold tickPower; split
  · split <;> rfl
  · rfl

@[simp] lemma tickPower_facts (dt : Int) (s : RunState) :
    (tickPower dt s).g.facts = s.g.facts := by
  unfold tickPower; split
  · split <;> rfl
  · rfl

@[simp] lemma tickPower_brain (dt : Int) (s : RunState) :
    (tickPower dt s).brain = s.brain := by
  unfold tickPower; split
  · split <;> rfl
  · rfl

@[simp] lemma tickPower_virus (dt : Int) (s : RunState) :
    (tickPower dt s).virus = s.virus := by
  unfold tickPower; split
  · split <;> rfl
  · rfl

@[simp] lemma tickPower_completed (dt : Int) (s : RunState) :
    (tickPower dt s).completed = s.completed := by
  unfold tickPower; split
  · split <;> rfl
  · rfl

@[simp] lemma tickPower_lastHitAt (dt : Int) (s : RunState) :
    (tickPower dt s).lastHitAt = s.lastHitAt := by
  unfold tickPower; split
  · split <;> rfl
  · rfl

@[simp] lemma tickComplete_score (cfg : LevelCfg) (s : RunState) :
    (tickComplete cfg s).g.score = s.g.score := by
  unfold tickComplete completeLevel; split
  · split
    · rfl
    · simp
  · rfl

@[simp] lemma tickComplete_health (cfg : LevelCfg) (s : RunState) :
    (tickComplete cfg s).g.health = s.g.health := by
  unfold tickComplete completeLevel; split
  · split
    · rfl
    · simp
  · rfl

@[simp] lemma tickComplete_energy (cfg : LevelCfg) (s : RunState) :
    (tickComplete cfg s).g.energy = s.g.energy := by
  unfold tickComplete completeLevel; split
  · split
    · rfl
    · simp
  · rfl

@[simp] lemma tickComplete_powerMode (cfg : LevelCfg) (s : RunState) :
    (tickComplete cfg s).g.powerMode = s.g.powerMode := by
  unfold tickComplete completeLevel; split
  · split
    · rfl
    · simp
  · rfl

@[simp] lemma tickComplete_powerTimer (cfg : LevelCfg) (s : RunState) :
    (tickComplete cfg s).g.powerTimer = s.g.powerTimer := by
  unfold tickComplete completeLevel; split
  · split
    · rfl
    · simp
  · rfl

@[simp] lemma tickComplete_enemies (cfg : LevelCfg) (s : RunState) :
    (tickComplete cfg s).enemies = s.enemies := by
  unfold tickComplete completeLevel; split
  · split <;> rfl
  · rfl

@[simp] lemma createLevel_score (cfg : LevelCfg) (g : GState) :
    (createLevel cfg g).g.score = g.score := rfl

@[simp] lemma createLevel_stars (cfg : LevelCfg) (g : GState) :
    (createLevel cfg g).g.stars = g.stars := rfl

@[simp] lemma createLevel_systems (cfg : LevelCfg) (g : GState) :
    (createLevel cfg g).g.systems = g.systems := rfl

@[simp] lemma createLevel_facts (cfg : LevelCfg) (g : GState) :
    (createLevel cfg g).g.facts = g.facts := rfl

/-! ## Claim theorems -/

/-- C2: along every sequence of events in a level run, `energyCount` never
exceeds the level's configured threshold (10 for Circulatory, 12 for Lungs),
and each energy-orb pickup increments it by exactly 1 precisely while it is
strictly below the threshold (at the threshold a pickup leaves it
unchanged). -/
theorem C2_energy_never_exceeds_threshold :
    (∀ (g0 : GState) (s : RunState), Reach circCfg g0 s → s.g.energy ≤ 10) ∧
    (∀ (g0 : GState) (s : RunState), Reach lungsCfg g0 s → s.g.energy ≤ 12) ∧
    (∀ (cfg : LevelCfg) (s : RunState),
      (s.g.energy < cfg.maxE → (orbPickup cfg s).g.energy = s.g.energy + 1) ∧
      (cfg.maxE ≤ s.g.energy → (orbPickup cfg s).g.energy = s.g.energy)) := by
  refine ⟨fun g0 s h => (reach_inv h).1, fun g0 s h => (reach_inv h).1, fun cfg s => ⟨?_, ?_⟩⟩
  · intro h
    simp [orbPickup, h]
  · intro h
    simp [orbPickup]
    omega

/-- Witness for C2 at a concrete run state: the freshly created Circulatory
level has 0 energy (within the cap), and one pickup there yields energy 1. -/
theorem C2_energy_never_exceeds_threshold_witness :
    (createLevel circCfg initG).g.energy ≤ 10 ∧
    (orbPickup circCfg (createLevel circCfg initG)).g.energy =
      (createLevel circCfg initG).g.energy + 1 := by
  refine ⟨C2_energy_never_exceeds_threshold.1 initG _ Reach.init, ?_⟩
  exact (C2_energy_never_exceeds_threshold.2.2 circCfg (createLevel circCfg initG)).1
    (by decide)

/-- C3: every reachable run state keeps health in [0, 100]; the per-level
reset starts it at 100; an off-cooldown hostile hit applies the source's
clamped 10-point decrement (never negative); and a live tick with health 0
restarts the level with the whole run state reset. -/
theorem C3_health_clamped_and_death_restarts :
    (∀ (cfg : LevelCfg) (g0 : GState) (s : RunState), Reach cfg g0 s →
       0 ≤ s.g.health ∧ s.g.health ≤ 100) ∧
    (∀ g : GState, (resetStatsForLevel g).health = 100) ∧
    (∀ (cfg : LevelCfg) (s : RunState) (i : Nat) (now : Int) (hi : i < s.enemies.length),
       (s.g.powerMode && (s.enemies.get ⟨i, hi⟩).vulnerable) = false →
       650 ≤ now - s.lastHitAt →
       (virusContact cfg i now s).g.health =
         (if s.g.health - 10 < 0 then 0 else s.g.health - 10)) ∧
    (∀ (cfg : LevelCfg) (s : RunState) (dt : Int), s.completed = false → s.g.health = 0 →
       (levelTick cfg dt s).g.health = 100 ∧ (levelTick cfg dt s).g.energy = 0 ∧
       (levelTick cfg dt s).g.powerMode = false ∧ (levelTick cfg dt s).g.powerTimer = 0 ∧
       (levelTick cfg dt s).completed = false ∧ (levelTick cfg dt s).lastHitAt = 0 ∧
       (levelTick cfg dt s).brain = false ∧ (levelTick cfg dt s).virus = false) := by
  refine ⟨fun cfg g0 s h => ⟨(reach_inv h).2.1, (reach_inv h).2.2.1⟩,
    fun g => rfl, ?_, ?_⟩
  · intro cfg s i now hi hb hcool
    unfold virusContact
    rw [dif_pos hi]
    dsimp only
    rw [if_neg (by simp_all), if_neg (by omega)]
  · intro cfg s dt hc hh
    have hdead : (tickComplete cfg (tickPower dt s)).g.health ≤ 0 := by
      rw [tickComplete_health, tickPower_health, hh]
    unfold levelTick
    rw [if_neg (by simp [hc]), tickDeath, if_pos hdead]
    exact ⟨rfl, rfl, rfl, rfl, rfl, rfl, rfl, rfl⟩

/-- Witness for C3 at concrete inputs: health bounds at the initial state; a
hostile hit at full health on a fresh Circulatory level takes health from 100
to 90; and a tick on a health-0 state restarts with the reset state. -/
theorem C3_health_clamped_and_death_restarts_witness :
    (0 ≤ (createLevel circCfg initG).g.health ∧ (createLevel circCfg initG).g.health ≤ 100) ∧
    (virusContact circCfg 0 700 (createLevel circCfg initG)).g.health = 90 ∧
    (levelTick circCfg 16
        { createLevel circCfg initG with g := { (createLevel circCfg initG).g with health := 0 } }
      ).g.health = 100 := by
  refine ⟨C3_health_clamped_and_death_restarts.1 circCfg initG _ Reach.init, ?_, ?_⟩
  · have h := C3_health_clamped_and_death_restarts.2.2.1 circCfg (createLevel circCfg initG)
      0 700 (by decide) (by decide) (by decide)
    simpa using h
  · exact (C3_health_clamped_and_death_restarts.2.2.2 circCfg _ 16 rfl rfl).1

/-- C4: on a live tick while power mode is active the remaining time drops by
exactly the frame delta while that stays positive, and on reaching ≤ 0 the
state returns to Normal with every enemy's vulnerability flag and tint
cleared; in both cases the remaining time strictly decreases.  Activating
power mode — from the power-up handler, in any state, active or not — sets
the timer to exactly 6000 ms, and no reachable state ever has more than
6000 ms remaining. -/
theorem C4_power_timer_countdown :
    (∀ (cfg : LevelCfg) (g0 : GState) (s : RunState) (dt : Int),
       Reach cfg g0 s → s.completed = false → s.g.powerMode = true →
       0 < dt → 0 < s.g.health →
       (levelTick cfg dt s).g.powerTimer < s.g.powerTimer ∧
       (0 < s.g.powerTimer - dt →
          (levelTick cfg dt s).g.powerTimer = s.g.powerTimer - dt ∧
          (levelTick cfg dt s).g.powerMode = true) ∧
       (s.g.powerTimer - dt ≤ 0 →
          (levelTick cfg dt s).g.powerMode = false ∧
          (levelTick cfg dt s).g.powerTimer = 0 ∧
          ∀ e ∈ (levelTick cfg dt s).enemies, e.vulnerable = false ∧ e.tint = none)) ∧
    (∀ (cfg : LevelCfg) (s : RunState),
       (powerupPickup cfg s).g.powerMode = true ∧
       (powerupPickup cfg s).g.powerTimer = 6000) ∧
    (∀ (cfg : LevelCfg) (ms : Int) (s : RunState),
       (activatePower cfg ms s).g.powerTimer = ms ∧
       (activatePower cfg ms s).g.powerMode = true) ∧
    (∀ (cfg : LevelCfg) (g0 : GState) (s : RunState), Reach cfg g0 s →
       s.g.powerTimer ≤ 6000) := by
  refine ⟨?_, fun cfg s => ⟨rfl, rfl⟩, fun cfg ms s => ⟨rfl, rfl⟩,
    fun cfg g0 s h => (reach_inv h).2.2.2.2.1⟩
  intro cfg g0 s dt hr hc hpm hdt hh
  have htpos : 0 < s.g.powerTimer := (reach_inv hr).2.2.2.2.2.1 hpm
  have hB : levelTick cfg dt s = tickComplete cfg (tickPower dt s) := by
    unfold levelTick
    rw [if_neg (by simp [hc]), tickDeath,
      if_neg (by rw [tickComplete_health, tickPower_health]; omega)]
  refine ⟨?_, ?_, ?_⟩
  · rw [hB, tickComplete_powerTimer]
    unfold tickPower
    rw [if_pos hpm]
    by_cases hle : s.g.powerTimer - dt ≤ 0
    · rw [if_pos hle]
      show (0 : Int) < s.g.powerTimer
      omega
    · rw [if_neg hle]
      dsimp only
      omega
  · intro hgt
    rw [hB, tickComplete_powerTimer, tickComplete_powerMode]
    unfold tickPower
    rw [if_pos hpm, if_neg (by omega)]
    exact ⟨rfl, hpm⟩
  · intro hle
    rw [hB, tickComplete_powerTimer, tickComplete_powerMode, tickComplete_enemies]
    unfold tickPower
    rw [if_pos hpm, if_pos hle]
    refine ⟨rfl, rfl, ?_⟩
    intro e he
    simp only [endPower, List.mem_map] at he
    obtain ⟨a, _, rfl⟩ := he
    exact ⟨rfl, rfl⟩

/-- Witness for C4: picking up the power-up on a fresh Circulatory level is a
reachable state with the timer at exactly 6000; a 16 ms tick there leaves
power mode on with exactly 5984 ms remaining. -/
theorem C4_power_timer_countdown_witness :
    (step circCfg (createLevel circCfg initG) Ev.powerup).g.powerTimer = 6000 ∧
    (levelTick circCfg 16 (step circCfg (createLevel circCfg initG) Ev.powerup)).g.powerTimer =
      5984 ∧
    (levelTick circCfg 16 (step circCfg (createLevel circCfg initG) Ev.powerup)).g.powerMode =
      true := by
  have h := C4_power_timer_countdown.1 circCfg initG
    (step circCfg (createLevel circCfg initG) Ev.powerup) 16
    (Reach.next Ev.powerup Reach.init trivial) (by decide) (by decide) (by norm_num) (by decide)
  have h2 := h.2.1 (by decide)
  exact ⟨rfl, by rw [h2.1]; decide, h2.2⟩

/-- Core of C1: on a live tick, the reward block of `complete()` (star +1,
system flagged, both facts present) runs precisely when the energy counter
sits at the threshold and at least one sub-goal is up; with positive health
the tick also freezes gameplay (`_completed`). -/
lemma levelTick_grant_iff (cfg : LevelCfg) (g0 : GState) (s : RunState) (dt : Int)
    (hr : Reach cfg g0 s) (h0 : 0 ≤ g0.stars) (hc : s.completed = false) :
    (((levelTick cfg dt s).g.stars = s.g.stars + 1 ∧
      ((levelTick cfg dt s).g.systems.get cfg.sysId) = true ∧
      cfg.fact1 ∈ (levelTick cfg dt s).g.facts ∧
      cfg.fact2 ∈ (levelTick cfg dt s).g.facts) ↔
      (s.g.energy = cfg.maxE ∧ (s.brain = true ∨ s.virus = true))) ∧
    (s.g.energy = cfg.maxE → s.brain = true ∨ s.virus = true → 0 < s.g.health →
      (levelTick cfg dt s).completed = true) := by
  have hstars : 0 ≤ s.g.stars := reach_stars hr h0
  have hcap : s.g.energy ≤ cfg.maxE := (reach_inv hr).1
  have hA : (tickPower dt s).completed = false := by rw [tickPower_completed, hc]
  have hT : levelTick cfg dt s = tickDeath cfg (tickComplete cfg (tickPower dt s)) := by
    unfold levelTick
    rw [if_neg (by simp [hc])]
  by_cases hcond :
      (cfg.maxE ≤ (tickPower dt s).g.energy && ((tickPower dt s).brain || (tickPower dt s).virus))
        = true
  · -- completion fires on this tick
    have hcond' : s.g.energy = cfg.maxE ∧ (s.brain = true ∨ s.virus = true) := by
      simp only [tickPower_energy, tickPower_brain, tickPower_virus, Bool.and_eq_true,
        Bool.or_eq_true, decide_eq_true_eq] at hcond
      exact ⟨le_antisymm hcap hcond.1, hcond.2⟩
    have hCL : tickComplete cfg (tickPower dt s) = completeLevel cfg (tickPower dt s) := by
      unfold tickComplete
      rw [if_pos hcond]
    obtain ⟨hg, hcomp⟩ := completeLevel_g cfg hA
    constructor
    · rw [hT, tickDeath]
      constructor
      · intro _
        exact hcond'
      · intro _
        split
        · refine ⟨?_, ?_, ?_, ?_⟩ <;>
            simp only [createLevel_stars, createLevel_systems, createLevel_facts, hCL, hg,
              grantReward_systems, grantReward_stars, tickPower_stars, Sys.get_set]
          · omega
          · exact grantReward_fact1 cfg _
          · exact grantReward_fact2 cfg _
        · refine ⟨?_, ?_, ?_, ?_⟩ <;>
            simp only [hCL, hg, grantReward_systems, grantReward_stars, tickPower_stars,
              Sys.get_set]
          · omega
          · exact grantReward_fact1 cfg _
          · exact grantReward_fact2 cfg _
    · intro _ _ hh
      rw [hT, tickDeath,
        if_neg (by rw [tickComplete_health, tickPower_health]; omega), hCL, hcomp]
  · -- completion does not fire
    have hcond' : ¬(s.g.energy = cfg.maxE ∧ (s.brain = true ∨ s.virus = true)) := by
      intro ⟨he, hbv⟩
      apply hcond
      simp only [tickPower_energy, tickPower_brain, tickPower_virus, Bool.and_eq_true,
        Bool.or_eq_true, decide_eq_true_eq]
      exact ⟨le_of_eq he.symm, hbv⟩
    have hCL : tickComplete cfg (tickPower dt s) = tickPower dt s := by
      unfold tickComplete
      rw [if_neg hcond]
    constructor
    · rw [hT, tickDeath, hCL]
      constructor
      · intro hrew
        exfalso
        have : (tickDeath cfg (tickPower dt s)).g.stars = s.g.stars := by
          unfold tickDeath
          split
          · rw [createLevel_stars, tickPower_stars]
          · rw [tickPower_stars]
        rw [tickDeath] at this
        omega
      · intro hcc
        exact absurd hcc hcond'
    · intro he hbv _
      exact absurd ⟨he, hbv⟩ hcond'

/-- C1: in both levels, on a live tick the completion reward (freeze
gameplay, star +1, facts added, system flagged unlocked) is granted if and
only if the energy counter equals the level threshold (10 for Circulatory,
12 for Lungs) and at least one of the two sub-goals (power-up collected,
enemy defeated) holds; energy at the threshold with both sub-goals false, or
energy below the threshold with both true, does not complete the level. -/
theorem C1_completion_iff_threshold_and_subgoal :
    (∀ (g0 : GState) (s : RunState) (dt : Int),
      Reach circCfg g0 s → 0 ≤ g0.stars → s.completed = false →
      (((levelTick circCfg dt s).g.stars = s.g.stars + 1 ∧
        (levelTick circCfg dt s).g.systems.heart = true ∧
        circCfg.fact1 ∈ (levelTick circCfg dt s).g.facts ∧
        circCfg.fact2 ∈ (levelTick circCfg dt s).g.facts) ↔
        (s.g.energy = 10 ∧ (s.brain = true ∨ s.virus = true))) ∧
      (s.g.energy = 10 → s.brain = true ∨ s.virus = true → 0 < s.g.health →
        (levelTick circCfg dt s).completed = true)) ∧
    (∀ (g0 : GState) (s : RunState) (dt : Int),
      Reach lungsCfg g0 s → 0 ≤ g0.stars → s.completed = false →
      (((levelTick lungsCfg dt s).g.stars = s.g.stars + 1 ∧
        (levelTick lungsCfg dt s).g.systems.lungs = true ∧
        lungsCfg.fact1 ∈ (levelTick lungsCfg dt s).g.facts ∧
        lungsCfg.fact2 ∈ (levelTick lungsCfg dt s).g.facts) ↔
        (s.g.energy = 12 ∧ (s.brain = true ∨ s.virus = true))) ∧
      (s.g.energy = 12 → s.brain = true ∨ s.virus = true → 0 < s.g.health →
        (levelTick lungsCfg dt s).completed = true)) := by
  constructor
  · intro g0 s dt hr h0 hc
    exact levelTick_grant_iff circCfg g0 s dt hr h0 hc
  · intro g0 s dt hr h0 hc
    exact levelTick_grant_iff lungsCfg g0 s dt hr h0 hc

/-- A concrete Circulatory run: collect the power-up, then ten orbs.  It ends
with energy 10, the bonus sub-goal up and the enemy sub-goal down. -/
def circDemoRun : RunState :=
  step circCfg (step circCfg (step circCfg (step circCfg (step circCfg (step circCfg
    (step circCfg (step circCfg (step circCfg (step circCfg (step circCfg
      (createLevel circCfg initG) Ev.powerup) Ev.orb) Ev.orb) Ev.orb) Ev.orb) Ev.orb)
        Ev.orb) Ev.orb) Ev.orb) Ev.orb) Ev.orb

lemma circDemoRun_reach : Reach circCfg initG circDemoRun := by
  unfold circDemoRun
  repeat
    first
    | exact Reach.init
    | refine Reach.next _ ?_ trivial

/-- Witness for C1: on the concrete run with energy 10/10, bonus collected
and no enemy defeated, the next tick grants the star and freezes gameplay. -/
theorem C1_completion_iff_threshold_and_subgoal_witness :
    (levelTick circCfg 16 circDemoRun).g.stars = circDemoRun.g.stars + 1 ∧
    (levelTick circCfg 16 circDemoRun).completed = true := by
  have h := C1_completion_iff_threshold_and_subgoal.1 initG circDemoRun 16
    circDemoRun_reach (by decide) (by decide)
  exact ⟨(h.1.mpr ⟨by decide, Or.inl (by decide)⟩).1,
    h.2 (by decide) (Or.inl (by decide)) (by decide)⟩

/-- C5: with the enemy hostile (power mode off or the enemy not vulnerable)
and the cooldown expired, a contact at `t1` applies the single clamped
10-point decrement and records `lastHitAt = t1`; any further hostile contact
at `t2` with `t2 - t1 < 650` is ignored entirely, so the two contacts cost
exactly one decrement. -/
theorem C5_damage_cooldown_single_decrement :
    ∀ (cfg : LevelCfg) (s : RunState) (i j : Nat) (t1 t2 : Int)
      (hi : i < s.enemies.length),
      (s.g.powerMode && (s.enemies.get ⟨i, hi⟩).vulnerable) = false →
      (∀ hj : j < s.enemies.length,
        (s.g.powerMode && (s.enemies.get ⟨j, hj⟩).vulnerable) = false) →
      650 ≤ t1 - s.lastHitAt → t2 - t1 < 650 →
      (virusContact cfg i t1 s).g.health =
        (if s.g.health - 10 < 0 then 0 else s.g.health - 10) ∧
      (virusContact cfg i t1 s).lastHitAt = t1 ∧
      virusContact cfg j t2 (virusContact cfg i t1 s) = virusContact cfg i t1 s := by
  intro cfg s i j t1 t2 hi hhost hhostj hcool hwin
  have h1 : virusContact cfg i t1 s =
      { s with lastHitAt := t1
               g := { s.g with health :=
                        if s.g.health - 10 < 0 then 0 else s.g.health - 10 } } := by
    unfold virusContact
    rw [dif_pos hi]
    dsimp only
    rw [if_neg (by simp_all), if_neg (by omega)]
  refine ⟨by rw [h1], by rw [h1], ?_⟩
  rw [h1]
  unfold virusContact
  by_cases hj : j <
      ({ s with lastHitAt := t1
                g := { s.g with health :=
                         if s.g.health - 10 < 0 then 0 else s.g.health - 10 } }
        : RunState).enemies.length
  · rw [dif_pos hj]
    dsimp only
    rw [if_neg (by simpa using hhostj hj), if_pos (by show t2 - t1 < 650; omega)]
  · rw [dif_neg hj]

/-- Witness for C5: two hostile contacts at times 700 and 1000 on a fresh
Circulatory level (cooldown clear for the first) leave health at 90 — one
decrement, the second contact ignored. -/
theorem C5_damage_cooldown_single_decrement_witness :
    (virusContact circCfg 0 700 (createLevel circCfg initG)).g.health = 90 ∧
    virusContact circCfg 1 1000 (virusContact circCfg 0 700 (createLevel circCfg initG)) =
      virusContact circCfg 0 700 (createLevel circCfg initG) := by
  have h := C5_damage_cooldown_single_decrement circCfg (createLevel circCfg initG) 0 1
    700 1000 (by decide) (by decide)
    (fun hj => by
      have hv : ((createLevel circCfg initG).g.powerMode &&
          ((createLevel circCfg initG).enemies.get ⟨1, by decide⟩).vulnerable) = false := by
        decide
      exact hv)
    (by decide) (by decide)
  exact ⟨by rw [h.1]; decide, h.2.2⟩

/-- C10: the per-level reset sets health 100, energy 0 and power mode off
with timer 0 while leaving the session score unchanged; no tick — including
the death-restart tick — and no level re-entry changes the score; and the
persisted record is independent of the score (`persist` never writes it). -/
theorem C10_reset_keeps_score_unpersisted :
    (∀ g : GState,
      (resetStatsForLevel g).health = 100 ∧ (resetStatsForLevel g).energy = 0 ∧
      (resetStatsForLevel g).powerMode = false ∧ (resetStatsForLevel g).powerTimer = 0 ∧
      (resetStatsForLevel g).score = g.score) ∧
    (∀ (cfg : LevelCfg) (dt : Int) (s : RunState),
      (levelTick cfg dt s).g.score = s.g.score) ∧
    (∀ (cfg : LevelCfg) (g : GState), (createLevel cfg g).g.score = g.score) ∧
    (∀ (g : GState) (x : Int), progressJson { g with score := x } = progressJson g) := by
  refine ⟨fun g => ⟨rfl, rfl, rfl, rfl, rfl⟩, ?_, fun cfg g => rfl, fun g x => rfl⟩
  intro cfg dt s
  unfold levelTick
  split
  · rfl
  · unfold tickDeath
    split
    · rw [createLevel_score, tickComplete_score, tickPower_score]
    · rw [tickComplete_score, tickPower_score]

/-- C6 counterexample: at the concrete state with the heart unrepaired and 0
stars, pressing the hub's repair button produces *no* toast notice at all
(the button is built disabled, with no `pointerdown` handler attached), so
the claim's "producing only a transient toast notice" is false there; the
state is indeed left unchanged. -/
theorem C6_press_without_stars_no_toast :
    initG.systems.heart = false ∧ initG.stars < 1 ∧
    pressHeartBtn initG = (initG, none) := by
  refine ⟨rfl, by decide, ?_⟩
  rfl

/-- C6 (amended): pressing the repair button with the heart unrepaired and
fewer than 1 star leaves the whole state — stars, systems, persisted store —
unchanged and produces no notice, because the button is disabled; the
advisory toast exists only in the (unreachable-from-the-hub) handler branch.
With at least 1 star, a press subtracts exactly one star, flags the heart
repaired and toasts success. -/
theorem C6_repair_button_behaviour :
    (∀ g : GState, g.systems.heart = false → g.stars < 1 →
      pressHeartBtn g = (g, none)) ∧
    (∀ g : GState, g.systems.heart = false → g.stars < 1 →
      heartBtnHandler g = (g, some "Earn a ⭐ by completing a level first.")) ∧
    (∀ g : GState, g.systems.heart = false → 1 ≤ g.stars →
      (pressHeartBtn g).1.stars = g.stars - 1 ∧
      (pressHeartBtn g).1.systems.heart = true ∧
      (pressHeartBtn g).2 = some "Heart valve repaired! Lungs unlocked.") := by
  refine ⟨?_, ?_, ?_⟩
  · intro g hh hs
    unfold pressHeartBtn heartBtnEnabled
    rw [hh]
    simp [show ¬(g.stars ≥ 1) by omega]
  · intro g hh hs
    unfold heartBtnHandler
    rw [if_neg (by simp [hh]), if_pos hs]
  · intro g hh hs
    have hen : heartBtnEnabled g = true := by
      unfold heartBtnEnabled
      rw [hh]
      simp [hs]
    unfold pressHeartBtn
    rw [if_pos hen]
    unfold heartBtnHandler
    rw [if_neg (by simp [hh]), if_neg (by omega)]
    refine ⟨?_, rfl, rfl⟩
    show ((addStars (-1) g).stars : Int) = g.stars - 1
    rw [addStars_stars]
    omega

/-- Witness for the amended C6: with exactly 1 star and the heart unrepaired,
a press leaves 0 stars, flags the heart repaired and toasts success. -/
theorem C6_repair_button_behaviour_witness :
    (pressHeartBtn { initG with stars := 1 }).1.stars = 0 ∧
    (pressHeartBtn { initG with stars := 1 }).1.systems.heart = true ∧
    (pressHeartBtn { initG with stars := 1 }).2 =
      some "Heart valve repaired! Lungs unlocked." := by
  have h := C6_repair_button_behaviour.2.2 { initG with stars := 1 } rfl (by decide)
  exact ⟨by rw [h.1]; decide, h.2.1, h.2.2⟩

lemma strListOf_map (xs : List String) : strListOf (xs.map .jstr) = some xs := by
  induction xs with
  | nil => rfl
  | cons a rest ih => simp [strListOf, ih]

/-- C7: persisting a progress snapshot (non-negative integral star count,
boolean system flags, string facts) and then loading on a fresh state whose
storage slot holds exactly what `persist` wrote reproduces the identical
`{stars, systems, facts}` snapshot. -/
theorem C7_persist_load_roundtrip :
    ∀ g g0 : GState, 0 ≤ g.stars →
      (loadG { g0 with stored := (persistG g).stored }).map
          (fun g' => (g'.stars, g'.systems, g'.facts)) =
        some (g.stars, g.systems, g.facts) := by
  intro g g0 h
  have hload : loadG { g0 with stored := (persistG g).stored } =
      some { g0 with stored := (persistG g).stored
                     stars := g.stars
                     systems := { heart := g.systems.heart, lungs := g.systems.lungs }
                     facts := g.facts } := by
    unfold loadG persistG
    dsimp only
    rw [show factsOf (progressJson g) = strListOf (g.facts.map .jstr) from rfl, strListOf_map,
      if_pos (show truthy (progressJson g) = true from rfl),
      show starsOf (progressJson g) = some g.stars from rfl]
    rfl
  rw [hload]
  rfl

/-- A concrete progress snapshot: 3 stars, heart repaired, two facts. -/
def demoProgress : GState :=
  { initG with stars := 3, facts := ["a", "b"]
               systems := { heart := true, lungs := false } }

/-- Witness for C7 at a concrete snapshot. -/
theorem C7_persist_load_roundtrip_witness :
    (loadG { initG with stored := (persistG demoProgress).stored }).map
        (fun g' => (g'.stars, g'.systems, g'.facts)) =
      some (demoProgress.stars, demoProgress.systems, demoProgress.facts) :=
  C7_persist_load_roundtrip demoProgress initG (by decide)

lemma strListOf_some {xs : List JVal} {l : List String} (h : strListOf xs = some l) :
    xs = l.map .jstr := by
  induction xs generalizing l with
  | nil =>
    simp only [strListOf, Option.some.injEq] at h
    rw [← h]
    rfl
  | cons a rest ih =>
    cases a with
    | null => simp [strListOf] at h
    | jbool b => simp [strListOf] at h
    | jnum n => simp [strListOf] at h
    | jarr ys => simp [strListOf] at h
    | jobj fs => simp [strListOf] at h
    | jstr s =>
      simp only [strListOf, Option.map_eq_some'] at h
      obtain ⟨l2, hl2, heq⟩ := h
      rw [← heq]
      simp only [List.map_cons, List.cons.injEq]
      exact ⟨trivial, ih hl2⟩

/-- The typed loader is the restriction of the total loader `loadRaw` to the
integer-stars/string-facts state space: wherever `loadG` is defined, the
dynamically-typed view of its result is exactly what `loadRaw` produces. -/
lemma loadG_agrees_loadRaw {g g' : GState} (h : loadG g = some g') :
    loadRaw g = dynProgress g' := by
  unfold loadG at h
  unfold loadRaw
  cases hs : g.stored with
  | absent =>
    rw [hs] at h
    obtain rfl := Option.some.inj h
    rfl
  | malformed =>
    rw [hs] at h
    obtain rfl := Option.some.inj h
    rfl
  | stored p =>
    rw [hs] at h
    dsimp only at h ⊢
    by_cases ht : truthy p = true
    · rw [if_pos ht] at h
      rw [if_pos ht]
      cases hst : starsOf p with
      | none =>
        rw [hst] at h
        cases hfa : factsOf p <;> rw [hfa] at h <;> exact absurd h (by simp)
      | some st =>
        cases hfa : factsOf p with
        | none =>
          rw [hst, hfa] at h
          exact absurd h (by simp)
        | some fs =>
          rw [hst, hfa] at h
          obtain rfl := Option.some.inj h
          have hstars : (match jsField p "stars" with
              | none => JVal.jnum 0
              | some .null => JVal.jnum 0
              | some v => v) = .jnum st := by
            unfold starsOf at hst
            cases hjf : jsField p "stars" with
            | none =>
              rw [hjf] at hst
              obtain rfl := Option.some.inj hst
              rfl
            | some v =>
              rw [hjf] at hst
              cases v with
              | null =>
                obtain rfl := Option.some.inj hst
                rfl
              | jnum n =>
                obtain rfl := Option.some.inj hst
                rfl
              | jbool b => exact absurd hst (by simp)
              | jstr s2 => exact absurd hst (by simp)
              | jarr ys => exact absurd hst (by simp)
              | jobj fs2 => exact absurd hst (by simp)
          have hfacts : (match jsField p "facts" with
              | some (.jarr xs) => xs
              | _ => ([] : List JVal)) = fs.map .jstr := by
            unfold factsOf at hfa
            cases hjf : jsField p "facts" with
            | none =>
              rw [hjf] at hfa
              obtain rfl := Option.some.inj hfa
              rfl
            | some v =>
              rw [hjf] at hfa
              cases v with
              | jarr ys => exact strListOf_some hfa
              | null =>
                obtain rfl := Option.some.inj hfa
                rfl
              | jbool b =>
                obtain rfl := Option.some.inj hfa
                rfl
              | jnum n =>
                obtain rfl := Option.some.inj hfa
                rfl
              | jstr s2 =>
                obtain rfl := Option.some.inj hfa
                rfl
              | jobj fs2 =>
                obtain rfl := Option.some.inj hfa
                rfl
          unfold adoptRecord dynProgress
          rw [hstars, hfacts]
    · rw [if_neg ht] at h
      obtain rfl := Option.some.inj h
      rw [if_neg ht]

/-- C9: `load()` never fails.  When the storage slot is absent or its
content does not parse (and likewise when the parse result is falsy), the
in-memory progress is left untouched — a fresh session keeps the zero
defaults (0 stars, no systems unlocked, no facts) — and for *every* storage
content whatsoever the loader yields one of the source's two defined
outcomes (untouched progress, or the field-wise adopted record): there is no
error outcome on any input. -/
theorem C9_load_total_defaults_on_bad_storage :
    (∀ g : GState, g.stored = .absent → loadRaw g = dynProgress g) ∧
    (∀ g : GState, g.stored = .malformed → loadRaw g = dynProgress g) ∧
    (∀ (g : GState) (p : JVal), g.stored = .stored p → truthy p = false →
      loadRaw g = dynProgress g) ∧
    initG.stars = 0 ∧ initG.systems.heart = false ∧ initG.systems.lungs = false ∧
    initG.facts = [] ∧
    (∀ g : GState, loadRaw g = dynProgress g ∨
      ∃ p : JVal, g.stored = .stored p ∧ loadRaw g = adoptRecord p) := by
  refine ⟨?_, ?_, ?_, rfl, rfl, rfl, rfl, ?_⟩
  · intro g h
    unfold loadRaw
    rw [h]
  · intro g h
    unfold loadRaw
    rw [h]
  · intro g p h hf
    unfold loadRaw
    rw [h]
    exact if_neg (by simp [hf])
  · intro g
    cases hs : g.stored with
    | absent =>
      left
      unfold loadRaw
      rw [hs]
    | malformed =>
      left
      unfold loadRaw
      rw [hs]
    | stored p =>
      by_cases ht : truthy p = true
      · refine Or.inr ⟨p, rfl, ?_⟩
        unfold loadRaw
        rw [hs]
        exact if_pos ht
      · left
        unfold loadRaw
        rw [hs]
        exact if_neg ht

/-- A session whose storage slot holds valid but ill-typed JSON: a string
`stars` field and a `facts` array containing a number.  The JS `load()`
adopts these verbatim without throwing. -/
def badStoreG : GState :=
  { initG with stored := .stored (.jobj
      [("stars", .jstr "x"), ("facts", .jarr [.jnum 5])]) }

/-- Witness for C9: a fresh session over an absent slot keeps the defaults,
and even the ill-typed stored record is handled without failure (it falls
into the adopted-record outcome). -/
theorem C9_load_total_defaults_on_bad_storage_witness :
    loadRaw initG = dynProgress initG ∧
    (loadRaw badStoreG = dynProgress badStoreG ∨
      ∃ p : JVal, badStoreG.stored = .stored p ∧ loadRaw badStoreG = adoptRecord p) :=
  ⟨C9_load_total_defaults_on_bad_storage.1 initG rfl,
   C9_load_total_defaults_on_bad_storage.2.2.2.2.2.2.2 badStoreG⟩

/-- Provenance of the jump-buffer stamp: after running any input list, the
recorded `jumpBufferTime` is either cleared (0), the time of some `keydown-UP`
event in the list, or still the starting value. -/
lemma pcRun_jumpBufferTime (L : List PInput) :
    ∀ s : PCState, (pcRun s L).jumpBufferTime = 0 ∨
      PInput.keyUp (pcRun s L).jumpBufferTime ∈ L ∨
      (pcRun s L).jumpBufferTime = s.jumpBufferTime := by
  induction L with
  | nil => exact fun s => Or.inr (Or.inr rfl)
  | cons a rest ih =>
    intro s
    cases a with
    | keyUp t =>
      simp only [pcRun]
      rcases ih (keydownUp t s) with h | h | h
      · exact Or.inl h
      · exact Or.inr (Or.inl (List.mem_cons_of_mem _ h))
      · refine Or.inr (Or.inl ?_)
        rw [h]
        exact List.mem_cons_self _ _
    | frame t gr l r =>
      simp only [pcRun]
      rcases ih (applyMoveAndJump t gr l r s) with h | h | h
      · exact Or.inl h
      · exact Or.inr (Or.inl (List.mem_cons_of_mem _ h))
      · have hb : (applyMoveAndJump t gr l r s).jumpBufferTime = 0 ∨
            (applyMoveAndJump t gr l r s).jumpBufferTime = s.jumpBufferTime := by
          simp only [applyMoveAndJump]
          split
          · exact Or.inl rfl
          · exact Or.inr rfl
        rcases hb with hb | hb
        · exact Or.inl (h.trans hb)
        · exact Or.inr (Or.inr (h.trans hb))

/-- Provenance of the coyote stamp: after running any input list, the
recorded `coyoteTime` is either cleared (0), the time of some frame on which
the player stood on solid ground, or still the starting value. -/
lemma pcRun_coyoteTime (L : List PInput) :
    ∀ s : PCState, (pcRun s L).coyoteTime = 0 ∨
      (∃ l r, PInput.frame (pcRun s L).coyoteTime true l r ∈ L) ∨
      (pcRun s L).coyoteTime = s.coyoteTime := by
  induction L with
  | nil => exact fun s => Or.inr (Or.inr rfl)
  | cons a rest ih =>
    intro s
    cases a with
    | keyUp t =>
      simp only [pcRun]
      rcases ih (keydownUp t s) with h | h | h
      · exact Or.inl h
      · obtain ⟨l, r, hm⟩ := h
        exact Or.inr (Or.inl ⟨l, r, List.mem_cons_of_mem _ hm⟩)
      · exact Or.inr (Or.inr h)
    | frame t gr l r =>
      simp only [pcRun]
      rcases ih (applyMoveAndJump t gr l r s) with h | h | h
      · exact Or.inl h
      · obtain ⟨l2, r2, hm⟩ := h
        exact Or.inr (Or.inl ⟨l2, r2, List.mem_cons_of_mem _ hm⟩)
      · have hb : (applyMoveAndJump t gr l r s).coyoteTime = 0 ∨
            ((applyMoveAndJump t gr l r s).coyoteTime = t ∧ gr = true) ∨
            (applyMoveAndJump t gr l r s).coyoteTime = s.coyoteTime := by
          simp only [applyMoveAndJump]
          split
          · exact Or.inl rfl
          · cases hg : gr with
            | true => exact Or.inr (Or.inl ⟨by simp [hg], rfl⟩)
            | false => exact Or.inr (Or.inr (by simp [hg]))
        rcases hb with hb | hb | hb
        · exact Or.inl (h.trans hb)
        · refine Or.inr (Or.inl ⟨l, r, ?_⟩)
          rw [h, hb.1, ← hb.2]
          exact List.mem_cons_self _ _
        · exact Or.inr (Or.inr (h.trans hb))

/-- C8: at any frame time past the 140 ms startup window, over the controller
state produced by an arbitrary input history, a jump fires only if (a) a
`keydown-UP` press was recorded in the history within the 140 ms buffer
window before now, and (b) the player is on the ground now or a ground
contact was recorded within the 140 ms coyote window; a firing jump sets the
jump impulse and clears both stamps, and from a cleared buffer stamp no
further jump can fire at any later frame without a new key press. -/
theorem C8_jump_buffer_and_coyote :
    ∀ (L : List PInput) (now : Int) (onGround leftDown rightDown : Bool),
      140 < now →
      (jumpFires now onGround (pcRun pcInit L) = true →
        (PInput.keyUp (pcRun pcInit L).jumpBufferTime ∈ L ∧
         0 < (pcRun pcInit L).jumpBufferTime ∧
         now - (pcRun pcInit L).jumpBufferTime ≤ 140) ∧
        (onGround = true ∨
          ((∃ l r, PInput.frame (pcRun pcInit L).coyoteTime true l r ∈ L) ∧
           0 < (pcRun pcInit L).coyoteTime ∧
           now - (pcRun pcInit L).coyoteTime ≤ 140)) ∧
        ((applyMoveAndJump now onGround leftDown rightDown (pcRun pcInit L)).vy = -460 ∧
         (applyMoveAndJump now onGround leftDown rightDown (pcRun pcInit L)).jumpBufferTime
           = 0 ∧
         (applyMoveAndJump now onGround leftDown rightDown (pcRun pcInit L)).coyoteTime
           = 0)) ∧
      (∀ (s0 : PCState) (now2 : Int) (g2 l2 r2 : Bool), s0.jumpBufferTime = 0 →
        (140 < now2 → jumpFires now2 g2 s0 = false) ∧
        (applyMoveAndJump now2 g2 l2 r2 s0).jumpBufferTime = 0) := by
  intro L now onGround leftDown rightDown hnow
  constructor
  · intro hfire
    have hparts := hfire
    rw [jumpFires, Bool.and_eq_true, Bool.or_eq_true, decide_eq_true_eq] at hparts
    have hbuf : now - (pcRun pcInit L).jumpBufferTime ≤ 140 := hparts.1
    have hbpos : 0 < (pcRun pcInit L).jumpBufferTime := by omega
    have hbmem : PInput.keyUp (pcRun pcInit L).jumpBufferTime ∈ L := by
      rcases pcRun_jumpBufferTime L pcInit with h | h | h
      · omega
      · exact h
      · rw [h] at hbpos
        exact absurd hbpos (by decide)
    refine ⟨⟨hbmem, hbpos, hbuf⟩, ?_, ?_⟩
    · rcases hparts.2 with hg | hcoy
      · exact Or.inl hg
      · rw [decide_eq_true_eq] at hcoy
        have hcpos : 0 < (pcRun pcInit L).coyoteTime := by omega
        refine Or.inr ⟨?_, hcpos, hcoy⟩
        rcases pcRun_coyoteTime L pcInit with h | h | h
        · omega
        · exact h
        · rw [h] at hcpos
          exact absurd hcpos (by decide)
    · simp only [applyMoveAndJump, hfire, if_true]
      exact ⟨trivial, trivial, trivial⟩
  · intro s0 now2 g2 l2 r2 hz
    constructor
    · intro hn2
      rw [jumpFires, hz]
      simp only [Bool.and_eq_false_iff]
      left
      rw [decide_eq_false_iff_not]
      omega
    · simp only [applyMoveAndJump]
      split
      · rfl
      · exact hz

/-- Witness for C8: after a key press recorded at t = 200, a grounded frame
at t = 300 fires the jump (impulse −460, stamps cleared), and the cleared
state cannot fire again at t = 320 without a new press. -/
theorem C8_jump_buffer_and_coyote_witness :
    jumpFires 300 true (pcRun pcInit [PInput.keyUp 200]) = true ∧
    (applyMoveAndJump 300 true false false (pcRun pcInit [PInput.keyUp 200])).vy = -460 ∧
    (applyMoveAndJump 300 true false false (pcRun pcInit [PInput.keyUp 200])).jumpBufferTime
      = 0 ∧
    jumpFires 320 true
      (applyMoveAndJump 300 true false false (pcRun pcInit [PInput.keyUp 200])) = false := by
  have h := C8_jump_buffer_and_coyote [PInput.keyUp 200] 300 true false false (by norm_num)
  have hj := h.1 (by decide)
  refine ⟨by decide, hj.2.2.1, hj.2.2.2.1, ?_⟩
  exact (h.2 _ 320 true false false hj.2.2.2.1).1 (by norm_num)

end MicroMedics
